import Mathlib

/-!
Shallow embedding of `src/services/edenAITextService.ts`: the resilient
text-generation client.  The embedding covers the response-extraction
logic shared by `generateText` and `chat`, the retry/fallback control
flow of `generateTextWithRetry`, and the JSON post-processing utility
`parseJSONResponse`.  Network effects are abstracted as oracles: each
call to the underlying `generateText` is modelled by an
`Except Err String` outcome supplied per attempt.
-/

namespace EdenAI

/-- Failure taxonomy of the service (spec section 7). `transport` models a
non-2xx HTTP response, `noProviderResponse` the "No response from provider"
throw, `providerReported` the "Provider error" throw carrying the provider's
message, `emptyResponse` the "Empty response from AI provider" throw,
`malformedJson` the "Invalid JSON response from AI" throw, `emptyInput` the
"Empty response from AI - cannot parse JSON" throw, and `generic` any other
`Error(msg)`. -/
inductive Err where
  | transport (status : Nat) (body : String)
  | noProviderResponse
  | providerReported (msg : String)
  | emptyResponse
  | malformedJson
  | emptyInput
  | generic (msg : String)
deriving DecidableEq, Repr

/-- The JavaScript whitespace characters relevant to `trim` and `\s`
(space, tab, line feed, carriage return, vertical tab, form feed,
no-break space). -/
def jsSpace (c : Char) : Bool :=
  c = ' ' || c = '\t' || c = '\n' || c = '\r' || c = '\x0b' || c = '\x0c' || c = '\u00A0'

/-- JS `String.prototype.trim` on a character list. -/
def jsTrimL (cs : List Char) : List Char :=
  ((cs.dropWhile jsSpace).reverse.dropWhile jsSpace).reverse

/-- JS `String.prototype.trim`. -/
def jsTrim (s : String) : String := String.mk (jsTrimL s.data)

/-- Tests whether `pat` is a prefix of `cs` (character-exact). -/
def hasPrefixL : List Char → List Char → Bool
  | _, [] => true
  | [], _ :: _ => false
  | c :: cs, p :: ps => c = p && hasPrefixL cs ps

/-- Tests whether `pat` occurs somewhere in `cs`. -/
def hasInfixL : List Char → List Char → Bool
  | [], pat => pat.isEmpty
  | c :: rest, pat => hasPrefixL (c :: rest) pat || hasInfixL rest pat

/-- JS `String.prototype.includes`. -/
def strIncludes (s pat : String) : Bool := hasInfixL s.data pat.data

/-- Evaluation of `provider.split('/')[0]`: the substring before the first separator
(the whole string when no separator occurs). -/
def baseProvider (s : String) : String :=
  String.mk (s.data.takeWhile (fun c => c != '/'))

/-- The `error` payload of a provider entry (`error.message`). -/
structure ErrInfo where
  message : Option String
deriving DecidableEq, Repr

/-- One provider-keyed entry of the raw EdenAI response body: optional
`generated_text`, optional `status`, optional `error` payload. -/
structure Entry where
  generated_text : Option String
  status : Option String
  error : Option ErrInfo
deriving DecidableEq, Repr

/-- The raw response body: an insertion-ordered mapping from provider key
to entry (`Object.keys` order is the list order). -/
abbrev ProviderResponse := List (String × Entry)

/-- JavaScript object-key lookup `data[k]`. -/
def jsLookup (data : ProviderResponse) (k : String) : Option Entry :=
  (data.find? (fun kv => kv.1 == k)).map (fun kv => kv.2)

/-- JS truthiness of `data[k]?.generated_text`: the field is present and a
non-empty string. -/
def truthyText (e : Entry) : Bool :=
  match e.generated_text with
  | some s => s != ""
  | none => false

/-- Evaluation of `providerResponse.error?.message || 'Unknown error'`. -/
def providerErrMsg (e : Entry) : String :=
  match e.error with
  | some er =>
    match er.message with
    | some m => if m = "" then "Unknown error" else m
    | none => "Unknown error"
  | none => "Unknown error"

/-- Resolution of the requested provider key against the response body
(lines 89-95 of `generateText`, identically lines 191-195 of `chat`):
the exact key first; when that misses and the key contains a separator,
the base name before the separator. -/
def resolveEntry (data : ProviderResponse) (provider : String) : Option Entry :=
  match jsLookup data provider with
  | some e => some e
  | none =>
    if strIncludes provider "/" then jsLookup data (baseProvider provider)
    else none

/-- The scan over all keys for the first entry with truthy
`generated_text` (lines 103-108 of `generateText`, lines 199-202 of
`chat`), returning that entry's text. -/
def scanText (data : ProviderResponse) : Option String :=
  (data.find? (fun kv => truthyText kv.2)).map
    (fun kv => kv.2.generated_text.getD "")

/-- Handling of an entry matched by exact or base-name key in
`generateText` (lines 113-130): an explicit failure status or error
payload raises `providerReported`; then `generated_text || ''` that is
empty or blank raises `emptyResponse`; otherwise the text is returned. -/
def handleMatched (e : Entry) : Except Err String :=
  if e.status == some "fail" || e.error.isSome then
    .error (.providerReported (providerErrMsg e))
  else
    let t := e.generated_text.getD ""
    if jsTrim t = "" then .error .emptyResponse
    else .ok t

/-- The response-extraction portion of `generateText` (lines 87-130),
applied to the already-parsed response body. -/
def generateTextExtract (data : ProviderResponse) (provider : String) :
    Except Err String :=
  match resolveEntry data provider with
  | some e => handleMatched e
  | none =>
    match scanText data with
    | some t => .ok t
    | none => .error .noProviderResponse

/-- The response-extraction portion of `chat` (lines 190-206): same key
resolution and scan, but a matched entry's `generated_text || ''` is
returned directly with no status, error, or blank-text check. -/
def chatExtract (data : ProviderResponse) (provider : String) :
    Except Err String :=
  match resolveEntry data provider with
  | some e => .ok (e.generated_text.getD "")
  | none =>
    match scanText data with
    | some t => .ok t
    | none => .error .noProviderResponse

/-- The module's `DEFAULT_PROVIDER`, `'openai/gpt-4o-mini'`. -/
def DEFAULT_PROVIDER : String := "openai/gpt-4o-mini"

/-- Evaluation of `generateOptions.provider || DEFAULT_PROVIDER` (line 242): an absent
or empty provider option falls back to the default. -/
def currentProvider (p : Option String) : String :=
  match p with
  | some s => if s = "" then DEFAULT_PROVIDER else s
  | none => DEFAULT_PROVIDER

/-- Observable outcome of the primary retry loop (lines 226-239):
the successful text if any, the last recorded error, the list of
backoff waits performed, and the number of `generateText` calls made. -/
structure LoopOut where
  success : Option String
  lastError : Option Err
  delays : List Nat
  calls : Nat
deriving DecidableEq, Repr

/-- The retry loop of `generateTextWithRetry` (lines 226-239), with
`primary k` the outcome of the `generateText` call on attempt `k`.
`attempt` is the 1-based attempt counter, `rem` the number of attempts
still allowed (`maxRetries - attempt + 1`), `delay` the current backoff.
A failure with further attempts remaining waits `delay` and doubles it;
a failure on the final attempt records the error and stops. -/
def runAttempts (primary : Nat → Except Err String) :
    Nat → Nat → Nat → LoopOut
  | _, 0, _ => ⟨none, none, [], 0⟩
  | attempt, rem + 1, delay =>
    match primary attempt with
    | .ok t => ⟨some t, none, [], 1⟩
    | .error e =>
      if rem = 0 then ⟨none, some e, [], 1⟩
      else
        let rest := runAttempts primary (attempt + 1) rem (delay * 2)
        ⟨rest.success, some (rest.lastError.getD e), delay :: rest.delays,
          rest.calls + 1⟩

/-- Observable trace of one `generateTextWithRetry` invocation: its
result, the number of primary `generateText` calls, the number of
fallback `generateText` calls, and the backoff waits performed. -/
structure RetryTrace where
  result : Except Err String
  primaryCalls : Nat
  fallbackCalls : Nat
  delays : List Nat
deriving Repr

/-- Model of `generateTextWithRetry` (lines 212-256).  `providerOpt` is
`options.provider`, `maxRetries` the configured limit (the loop body
runs `max 0 maxRetries` times), `primary k` the outcome of the primary
`generateText` call on attempt `k`, `fallback` the outcome of the single
Google-fallback `generateText` call.  After the loop: when the current
provider contains "openai" one fallback call is made; its success is
returned, its failure is discarded and `lastError` (or the generic
"Failed to generate text after retries") is thrown. -/
def generateTextWithRetry (providerOpt : Option String) (maxRetries : Int)
    (primary : Nat → Except Err String) (fallback : Except Err String) :
    RetryTrace :=
  let loop := runAttempts primary 1 maxRetries.toNat 1000
  match loop.success with
  | some t => ⟨.ok t, loop.calls, 0, loop.delays⟩
  | none =>
    let finalErr :=
      loop.lastError.getD (.generic "Failed to generate text after retries")
    if strIncludes (currentProvider providerOpt) "openai" then
      match fallback with
      | .ok t => ⟨.ok t, loop.calls, 1, loop.delays⟩
      | .error _ => ⟨.error finalErr, loop.calls, 1, loop.delays⟩
    else
      ⟨.error finalErr, loop.calls, 0, loop.delays⟩

/-! ### JSON values and a model of `JSON.parse` -/

/-- Parsed JSON values.  Number literals keep their source text; nothing
in `parseJSONResponse` depends on numeric evaluation. -/
inductive Json where
  | null
  | bool (b : Bool)
  | num (lit : String)
  | str (s : String)
  | arr (elems : List Json)
  | obj (members : List (String × Json))

/-- JSON (RFC 8259) insignificant whitespace accepted by `JSON.parse`. -/
def jsonWS (c : Char) : Bool := c = ' ' || c = '\t' || c = '\n' || c = '\r'

/-- Drop leading JSON whitespace. -/
def skipWS : List Char → List Char
  | [] => []
  | c :: cs => if jsonWS c then skipWS cs else c :: cs

/-- Hexadecimal digit value. -/
def hexVal (c : Char) : Option Nat :=
  if '0' ≤ c ∧ c ≤ '9' then some (c.toNat - '0'.toNat)
  else if 'a' ≤ c ∧ c ≤ 'f' then some (c.toNat - 'a'.toNat + 10)
  else if 'A' ≤ c ∧ c ≤ 'F' then some (c.toNat - 'A'.toNat + 10)
  else none

/-- Body of a JSON string literal after the opening quote: the decoded
characters and the input after the closing quote.  Unescaped control
characters are rejected, escape sequences are decoded. -/
def parseStrChars : Nat → List Char → Option (List Char × List Char)
  | 0, _ => none
  | _, [] => none
  | fuel + 1, c :: cs =>
    if c = '"' then some ([], cs)
    else if c = '\\' then
      match cs with
      | [] => none
      | e :: cs' =>
        let decoded : Option (Char × List Char) :=
          if e = '"' then some ('"', cs')
          else if e = '\\' then some ('\\', cs')
          else if e = '/' then some ('/', cs')
          else if e = 'b' then some ('\x08', cs')
          else if e = 'f' then some ('\x0c', cs')
          else if e = 'n' then some ('\n', cs')
          else if e = 'r' then some ('\r', cs')
          else if e = 't' then some ('\t', cs')
          else if e = 'u' then
            match cs' with
            | h1 :: h2 :: h3 :: h4 :: cs'' =>
              match hexVal h1, hexVal h2, hexVal h3, hexVal h4 with
              | some a, some b, some c2, some d =>
                some (Char.ofNat (((a * 16 + b) * 16 + c2) * 16 + d), cs'')
              | _, _, _, _ => none
            | _ => none
          else none
        match decoded with
        | some (ch, rest) =>
          match parseStrChars fuel rest with
          | some (s, r) => some (ch :: s, r)
          | none => none
        | none => none
    else if c.toNat < 32 then none
    else
      match parseStrChars fuel cs with
      | some (s, r) => some (c :: s, r)
      | none => none

/-- Maximal run of decimal digits. -/
def takeDigits : List Char → List Char × List Char
  | [] => ([], [])
  | c :: cs =>
    if c.isDigit then
      let (d, r) := takeDigits cs
      (c :: d, r)
    else ([], c :: cs)

/-- Optional fraction and exponent parts of a JSON number literal. -/
def parseFracExp (cs : List Char) : Option (List Char × List Char) :=
  let fracStep : Option (List Char × List Char) :=
    match cs with
    | '.' :: rest =>
      match takeDigits rest with
      | ([], _) => none
      | (ds, r) => some ('.' :: ds, r)
    | _ => some ([], cs)
  match fracStep with
  | none => none
  | some (frac, cs2) =>
    match cs2 with
    | c :: rest =>
      if c = 'e' ∨ c = 'E' then
        let (sgn, cs3) :=
          match rest with
          | '+' :: r => (['+'], r)
          | '-' :: r => (['-'], r)
          | _ => ([], rest)
        match takeDigits cs3 with
        | ([], _) => none
        | (ds, r) => some (frac ++ c :: (sgn ++ ds), r)
      else some (frac, cs2)
    | [] => some (frac, cs2)

/-- JSON number grammar `-? int frac? exp?` with `int` either `0` or a
nonzero digit followed by digits: the literal text and the rest. -/
def parseNumber (cs : List Char) : Option (List Char × List Char) :=
  let (sign, cs1) :=
    match cs with
    | '-' :: rest => (['-'], rest)
    | _ => ([], cs)
  match cs1 with
  | [] => none
  | c :: rest =>
    if c = '0' then
      (parseFracExp rest).map (fun p => (sign ++ '0' :: p.1, p.2))
    else if c.isDigit then
      let (d, r1) := takeDigits rest
      (parseFracExp r1).map (fun p => (sign ++ c :: (d ++ p.1), p.2))
    else none

/-- Comma-separated JSON array items up to the closing bracket, given a
parser `pv` for one value. -/
def parseArrayItems (pv : List Char → Option (Json × List Char)) :
    Nat → List Char → Option (List Json × List Char)
  | 0, _ => none
  | fuel + 1, cs =>
    match pv cs with
    | none => none
    | some (v, rest) =>
      match skipWS rest with
      | ',' :: rest' =>
        match parseArrayItems pv fuel rest' with
        | some (vs, r) => some (v :: vs, r)
        | none => none
      | ']' :: rest' => some ([v], rest')
      | _ => none

/-- Comma-separated JSON object members up to the closing brace, given a
parser `pv` for one value. -/
def parseObjMembers (pv : List Char → Option (Json × List Char)) :
    Nat → List Char → Option (List (String × Json) × List Char)
  | 0, _ => none
  | fuel + 1, cs =>
    match skipWS cs with
    | '"' :: rest =>
      match parseStrChars (rest.length + 1) rest with
      | none => none
      | some (k, rest1) =>
        match skipWS rest1 with
        | ':' :: rest2 =>
          match pv rest2 with
          | none => none
          | some (v, rest3) =>
            match skipWS rest3 with
            | ',' :: rest4 =>
              match parseObjMembers pv fuel rest4 with
              | some (ms, r) => some ((String.mk k, v) :: ms, r)
              | none => none
            | '}' :: rest4 => some ([(String.mk k, v)], rest4)
            | _ => none
        | _ => none
    | _ => none

/-- One JSON value (after leading whitespace): literals, strings,
numbers, arrays, objects.  `fuel` bounds the nesting depth. -/
def parseValue : Nat → List Char → Option (Json × List Char)
  | 0, _ => none
  | fuel + 1, cs =>
    match skipWS cs with
    | [] => none
    | 'n' :: 'u' :: 'l' :: 'l' :: rest => some (.null, rest)
    | 't' :: 'r' :: 'u' :: 'e' :: rest => some (.bool true, rest)
    | 'f' :: 'a' :: 'l' :: 's' :: 'e' :: rest => some (.bool false, rest)
    | '"' :: rest =>
      match parseStrChars (rest.length + 1) rest with
      | some (s, r) => some (.str (String.mk s), r)
      | none => none
    | '[' :: rest =>
      match skipWS rest with
      | ']' :: rest' => some (.arr [], rest')
      | _ =>
        match parseArrayItems (parseValue fuel) fuel (skipWS rest) with
        | some (vs, r) => some (.arr vs, r)
        | none => none
    | '{' :: rest =>
      match skipWS rest with
      | '}' :: rest' => some (.obj [], rest')
      | _ =>
        match parseObjMembers (parseValue fuel) fuel (skipWS rest) with
        | some (ms, r) => some (.obj ms, r)
        | none => none
    | other =>
      match parseNumber other with
      | some (lit, r) => some (.num (String.mk lit), r)
      | none => none

/-- Model of `JSON.parse`: one whitespace-delimited JSON value consuming the
whole input, or failure. -/
def jsonParse (s : String) : Option Json :=
  match parseValue (s.data.length + 1) s.data with
  | some (v, rest) => if (skipWS rest).isEmpty then some v else none
  | none => none

/-! ### The `parseJSONResponse` pipeline -/

/-- Case-insensitive literal prefix match: when the input starts with
the (lowercase) pattern up to case, return the rest. -/
def stripPrefixCI : List Char → List Char → Option (List Char)
  | [], cs => some cs
  | _ :: _, [] => none
  | p :: ps, c :: cs => if c.toLower = p then stripPrefixCI ps cs else none

/-- JS `String.prototype.replace` with a global case-insensitive literal
pattern and empty replacement: a left-to-right scan deleting each
occurrence and continuing after it. -/
def removeAllCI (pat : List Char) : Nat → List Char → List Char
  | 0, cs => cs
  | _, [] => []
  | fuel + 1, c :: cs =>
    match stripPrefixCI pat (c :: cs) with
    | some rest => removeAllCI pat fuel rest
    | none => c :: removeAllCI pat fuel cs

/-- The code-fence cleanup of `parseJSONResponse` (lines 268-271):
remove all occurrences of "```json" (case-insensitively), then all
occurrences of "```", then trim. -/
def cleanResponse (s : String) : String :=
  let a := removeAllCI ("```json".data) (s.data.length + 1) s.data
  let b := removeAllCI ("```".data) (a.length + 1) a
  String.mk (jsTrimL b)

/-- Index of the last occurrence of `c` in `cs`. -/
def lastIdxOf (c : Char) : List Char → Option Nat
  | [] => none
  | x :: xs =>
    match lastIdxOf c xs with
    | some i => some (i + 1)
    | none => if x = c then some 0 else none

/-- The span selected by the regex match on line 274
(first greedy balanced-looking span): at the leftmost position where an
alternative matches, a brace opener extends to the last closing brace of
the input, else a bracket opener to the last closing bracket. -/
def jsonSpan : List Char → Option (List Char)
  | [] => none
  | c :: rest =>
    if c = '{' then
      match lastIdxOf '}' rest with
      | some j => some ('{' :: rest.take (j + 1))
      | none => jsonSpan rest
    else if c = '[' then
      match lastIdxOf ']' rest with
      | some j => some ('[' :: rest.take (j + 1))
      | none => jsonSpan rest
    else jsonSpan rest

/-- Skip regex whitespace, then require the closing character; return
the input after it. -/
def wsCloseAfter (close : Char) : List Char → Option (List Char)
  | [] => none
  | c :: cs =>
    if c = close then some cs
    else if jsSpace c then wsCloseAfter close cs
    else none

/-- One global pass of `replace(/,\s*C/g, C)` for a closing character
`C`: each comma followed by whitespace and `C` collapses to `C`,
scanning left to right and continuing after the match. -/
def fixCommaClose (close : Char) : Nat → List Char → List Char
  | 0, cs => cs
  | _, [] => []
  | fuel + 1, c :: cs =>
    if c = ',' then
      match wsCloseAfter close cs with
      | some rest => close :: fixCommaClose close fuel rest
      | none => c :: fixCommaClose close fuel cs
    else c :: fixCommaClose close fuel cs

/-- The repair pass of `parseJSONResponse` (lines 291-293): remove
trailing commas before closing braces, then before closing brackets. -/
def fixTrailingCommas (s : String) : String :=
  let a := fixCommaClose '}' (s.data.length + 1) s.data
  String.mk (fixCommaClose ']' (a.length + 1) a)

/-- The text handed to `JSON.parse` (lines 268-277): the cleaned
response, narrowed to the first greedy braced/bracketed span when one
exists. -/
def candidateJson (s : String) : String :=
  let cleaned := cleanResponse s
  match jsonSpan cleaned.data with
  | some m => String.mk m
  | none => cleaned

/-- Model of `parseJSONResponse` (lines 261-300): blank input fails with
`emptyInput` before any parsing; otherwise the candidate span is parsed,
on failure the trailing-comma repair is applied and the parse retried
once, and `malformedJson` is raised only when both parses fail. -/
def parseJSONResponse (response : String) : Except Err Json :=
  if jsTrim response = "" then .error .emptyInput
  else
    match jsonParse (candidateJson response) with
    | some v => .ok v
    | none =>
      match jsonParse (fixTrailingCommas (candidateJson response)) with
      | some v => .ok v
      | none => .error .malformedJson

/-! ### Unfolding lemmas for the retry loop -/

lemma runAttempts_zero (primary : Nat → Except Err String) (a d : Nat) :
    runAttempts primary a 0 d = ⟨none, none, [], 0⟩ := rfl

lemma runAttempts_ok_step (primary : Nat → Except Err String)
    (a rem d : Nat) (t : String) (he : primary a = .ok t) :
    runAttempts primary a (rem + 1) d = ⟨some t, none, [], 1⟩ := by
  simp only [runAttempts, he]

lemma runAttempts_last_error (primary : Nat → Except Err String)
    (a d : Nat) (e : Err) (he : primary a = .error e) :
    runAttempts primary a 1 d = ⟨none, some e, [], 1⟩ := by
  simp [runAttempts, he]

lemma runAttempts_error_step (primary : Nat → Except Err String)
    (a rem d : Nat) (e : Err) (he : primary a = .error e) (hrem : rem ≠ 0) :
    runAttempts primary a (rem + 1) d =
      ⟨(runAttempts primary (a + 1) rem (d * 2)).success,
       some ((runAttempts primary (a + 1) rem (d * 2)).lastError.getD e),
       d :: (runAttempts primary (a + 1) rem (d * 2)).delays,
       (runAttempts primary (a + 1) rem (d * 2)).calls + 1⟩ := by
  simp only [runAttempts, he, hrem, if_false]

/-- Backoff bookkeeping: prepending the current delay to the doubled
sequence yields one more step of the exponential sequence. -/
lemma delays_shift (d r : Nat) :
    d :: (List.range r).map (fun j => d * 2 * 2 ^ j) =
      (List.range (r + 1)).map (fun j => d * 2 ^ j) := by
  have hf : ((fun j => d * 2 ^ j) ∘ Nat.succ) = fun j => d * 2 * 2 ^ j := by
    funext j
    simp only [Function.comp_apply, Nat.succ_eq_add_one, pow_succ]
    ring
  rw [List.range_succ_eq_map, List.map_cons, List.map_map, hf, pow_zero,
    mul_one]

/-- If attempts `a .. a+r-1` fail and attempt `a+r` succeeds (with `r`
strictly below the remaining budget `m`), the loop returns that text
after `r+1` calls, having waited `d·2^0, …, d·2^(r-1)`. -/
lemma runAttempts_succeeds (primary : Nat → Except Err String) (t : String) :
    ∀ (r a d m : Nat), r < m →
      (∀ j, j < r → ∃ err, primary (a + j) = .error err) →
      primary (a + r) = .ok t →
      (runAttempts primary a m d).success = some t ∧
      (runAttempts primary a m d).delays =
        (List.range r).map (fun j => d * 2 ^ j) ∧
      (runAttempts primary a m d).calls = r + 1 := by
  intro r
  induction r with
  | zero =>
    intro a d m hm _ hok
    obtain ⟨m', rfl⟩ : ∃ m', m = m' + 1 := ⟨m - 1, by omega⟩
    rw [Nat.add_zero] at hok
    rw [runAttempts_ok_step primary a m' d t hok]
    simp
  | succ r' ih =>
    intro a d m hm hfail hok
    obtain ⟨e0, he0⟩ := hfail 0 (by omega)
    rw [Nat.add_zero] at he0
    obtain ⟨m', rfl⟩ : ∃ m', m = m' + 1 := ⟨m - 1, by omega⟩
    have hm' : r' < m' := by omega
    have hmne : m' ≠ 0 := by omega
    have hfail' : ∀ j, j < r' → ∃ err, primary (a + 1 + j) = .error err := by
      intro j hj
      obtain ⟨err, herr⟩ := hfail (j + 1) (by omega)
      exact ⟨err, by rw [show a + 1 + j = a + (j + 1) by omega]; exact herr⟩
    have hok' : primary (a + 1 + r') = .ok t := by
      rw [show a + 1 + r' = a + (r' + 1) by omega]; exact hok
    obtain ⟨ihs, ihd, ihc⟩ := ih (a + 1) (d * 2) m' hm' hfail' hok'
    rw [runAttempts_error_step primary a m' d e0 he0 hmne]
    refine ⟨ihs, ?_, ?_⟩
    · show d :: (runAttempts primary (a + 1) m' (d * 2)).delays = _
      rw [ihd, delays_shift]
    · show (runAttempts primary (a + 1) m' (d * 2)).calls + 1 = _
      rw [ihc]

/-- If all `m ≥ 1` attempts `a .. a+m-1` fail with errors `e 0 .. e (m-1)`,
the loop records the last error, makes `m` calls, and waits
`d·2^0, …, d·2^(m-2)`. -/
lemma runAttempts_all_fail (primary : Nat → Except Err String) :
    ∀ (m : Nat) (e : Nat → Err) (a d : Nat), 0 < m →
      (∀ j, j < m → primary (a + j) = .error (e j)) →
      (runAttempts primary a m d).success = none ∧
      (runAttempts primary a m d).lastError = some (e (m - 1)) ∧
      (runAttempts primary a m d).delays =
        (List.range (m - 1)).map (fun j => d * 2 ^ j) ∧
      (runAttempts primary a m d).calls = m := by
  intro m
  induction m with
  | zero => intro e a d hm; omega
  | succ m' ih =>
    intro e a d _ hfail
    have he0 : primary a = .error (e 0) := by
      have := hfail 0 (by omega); rwa [Nat.add_zero] at this
    by_cases hm' : m' = 0
    · subst hm'
      rw [runAttempts_last_error primary a d (e 0) he0]
      simp
    · have hpos : 0 < m' := Nat.pos_of_ne_zero hm'
      have hfail' : ∀ j, j < m' → primary (a + 1 + j) = .error (e (j + 1)) := by
        intro j hj
        have := hfail (j + 1) (by omega)
        rwa [show a + (j + 1) = a + 1 + j by omega] at this
      obtain ⟨ihs, ihl, ihd, ihc⟩ :=
        ih (fun j => e (j + 1)) (a + 1) (d * 2) hpos hfail'
      rw [runAttempts_error_step primary a m' d (e 0) he0 hm']
      have hsub : m' - 1 + 1 = m' := by omega
      refine ⟨ihs, ?_, ?_, ?_⟩
      · show some ((runAttempts primary (a + 1) m' (d * 2)).lastError.getD
          (e 0)) = _
        rw [ihl]
        show some (e (m' - 1 + 1)) = some (e (m' + 1 - 1))
        rw [hsub, Nat.add_sub_cancel]
      · show d :: (runAttempts primary (a + 1) m' (d * 2)).delays = _
        rw [ihd, delays_shift d (m' - 1), hsub, Nat.add_sub_cancel]
      · show (runAttempts primary (a + 1) m' (d * 2)).calls + 1 = m' + 1
        rw [ihc]

/-- Sum of the first `n` powers of two. -/
lemma sum_two_pow (n : Nat) :
    ((List.range n).map (fun k => 2 ^ k)).sum = 2 ^ n - 1 := by
  induction n with
  | zero => simp
  | succ n ih =>
    rw [List.range_succ, List.map_append, List.sum_append, ih]
    have h1 : 1 ≤ 2 ^ n := Nat.one_le_two_pow
    have h2 : 2 ^ (n + 1) = 2 * 2 ^ n := by rw [pow_succ]; ring
    simp only [List.map_cons, List.map_nil, List.sum_cons, List.sum_nil]
    omega

/-- Closed form for the total backoff wait. -/
lemma sum_delay_pow (c n : Nat) :
    ((List.range n).map (fun k => c * 2 ^ k)).sum = c * (2 ^ n - 1) := by
  have h : ((List.range n).map (fun k => c * 2 ^ k)).sum =
      c * ((List.range n).map (fun k => 2 ^ k)).sum := by
    induction n with
    | zero => simp
    | succ n ih =>
      rw [List.range_succ, List.map_append, List.sum_append, ih,
        List.map_append, List.sum_append]
      simp only [List.map_cons, List.map_nil, List.sum_cons, List.sum_nil]
      ring
  rw [h, sum_two_pow]

/-! ### The claims -/

/-- C1: when all `maxRetries ≥ 1` primary attempts of
`generateTextWithRetry` fail and the configured provider identifier
contains "openai", exactly one fallback call is made (no retries on it);
a successful fallback's text is returned, and when the fallback fails
the raised error is the primary's last recorded error, not the
fallback's. -/
theorem generateTextWithRetry_exhausted_fallback (p : Option String)
    (m : Nat) (primary : Nat → Except Err String)
    (fallback : Except Err String) (e : Nat → Err) (hm : 0 < m)
    (hfail : ∀ j, j < m → primary (1 + j) = .error (e j))
    (hprov : strIncludes (currentProvider p) "openai" = true) :
    (generateTextWithRetry p m primary fallback).fallbackCalls = 1 ∧
    (∀ t, fallback = .ok t →
      (generateTextWithRetry p m primary fallback).result = .ok t) ∧
    (∀ fe, fallback = .error fe →
      (generateTextWithRetry p m primary fallback).result =
        .error (e (m - 1))) := by
  obtain ⟨hs, hl, _, _⟩ := runAttempts_all_fail primary m e 1 1000 hm hfail
  have htn : ((m : Int)).toNat = m := by omega
  refine ⟨?_, ?_, ?_⟩
  · cases hf : fallback with
    | ok t => simp [generateTextWithRetry, htn, hs, hl, hprov, hf]
    | error fe => simp [generateTextWithRetry, htn, hs, hl, hprov, hf]
  · intro t hf
    simp [generateTextWithRetry, htn, hs, hl, hprov, hf]
  · intro fe hf
    simp [generateTextWithRetry, htn, hs, hl, hprov, hf]

/-- C1 witness: two failing attempts on the default provider, fallback
failing with a transport error: one fallback call, and the raised error
is the primary's last error. -/
theorem generateTextWithRetry_exhausted_fallback_witness :
    (generateTextWithRetry none 2
        (fun _ => .error .emptyResponse)
        (.error (.transport 500 "x"))).fallbackCalls = 1 ∧
    (generateTextWithRetry none 2
        (fun _ => .error .emptyResponse)
        (.error (.transport 500 "x"))).result = .error .emptyResponse := by
  have h := generateTextWithRetry_exhausted_fallback none 2
    (fun _ => .error .emptyResponse) (.error (.transport 500 "x"))
    (fun _ => .emptyResponse) (by decide) (fun j _ => rfl) (by decide)
  exact ⟨h.1, h.2.2 (.transport 500 "x") rfl⟩

/-- C2: when attempts `1 .. maxRetries-1` fail and the final attempt
succeeds, the result is the successful attempt's text, the wait after
failed attempt `k` is `1000 * 2^(k-1)`, and the total elapsed wait is
the sum of that exponential sequence, `1000 * (2^(maxRetries-1) - 1)`. -/
theorem generateTextWithRetry_backoff (p : Option String) (m : Nat)
    (primary : Nat → Except Err String) (fallback : Except Err String)
    (t : String) (hm : 0 < m)
    (hfail : ∀ k, 1 ≤ k → k < m → ∃ err, primary k = .error err)
    (hok : primary m = .ok t) :
    (generateTextWithRetry p m primary fallback).result = .ok t ∧
    (generateTextWithRetry p m primary fallback).delays =
      (List.range (m - 1)).map (fun k => 1000 * 2 ^ k) ∧
    (generateTextWithRetry p m primary fallback).delays.sum =
      1000 * (2 ^ (m - 1) - 1) ∧
    (generateTextWithRetry p m primary fallback).primaryCalls = m ∧
    (generateTextWithRetry p m primary fallback).fallbackCalls = 0 := by
  have hfail' : ∀ j, j < m - 1 → ∃ err, primary (1 + j) = .error err :=
    fun j hj => hfail (1 + j) (by omega) (by omega)
  have hok' : primary (1 + (m - 1)) = .ok t := by
    rw [show 1 + (m - 1) = m by omega]; exact hok
  obtain ⟨hs, hd, hc⟩ :=
    runAttempts_succeeds primary t (m - 1) 1 1000 m (by omega) hfail' hok'
  have htn : ((m : Int)).toNat = m := by omega
  have hcm : m - 1 + 1 = m := by omega
  refine ⟨?_, ?_, ?_, ?_, ?_⟩ <;>
    simp [generateTextWithRetry, htn, hs, hd, hc, hcm, sum_delay_pow]

/-- C2 witness: three attempts, first two fail, third succeeds: waits
1000 then 2000, total 3000, three calls, no fallback. -/
theorem generateTextWithRetry_backoff_witness :
    (generateTextWithRetry none 3
        (fun k => if k = 3 then .ok "done" else .error .emptyResponse)
        (.ok "fb")).result = .ok "done" ∧
    (generateTextWithRetry none 3
        (fun k => if k = 3 then .ok "done" else .error .emptyResponse)
        (.ok "fb")).delays = [1000, 2000] ∧
    (generateTextWithRetry none 3
        (fun k => if k = 3 then .ok "done" else .error .emptyResponse)
        (.ok "fb")).delays.sum = 3000 := by
  have h := generateTextWithRetry_backoff none 3
    (fun k => if k = 3 then .ok "done" else .error .emptyResponse)
    (.ok "fb") "done" (by decide)
    (fun k h1 h2 => ⟨.emptyResponse, by
      have hk : k ≠ 3 := by omega
      simp [hk]⟩)
    (by simp)
  exact ⟨h.1, h.2.1.trans rfl, h.2.2.1.trans rfl⟩

/-- C8: when the first primary attempt succeeds, the extracted text is
returned with zero backoff waits and exactly one dispatch call (one
primary call, no fallback, no further attempts). -/
theorem generateTextWithRetry_first_success (p : Option String) (m : Nat)
    (primary : Nat → Except Err String) (fallback : Except Err String)
    (t : String) (hm : 0 < m) (h1 : primary 1 = .ok t) :
    (generateTextWithRetry p m primary fallback).result = .ok t ∧
    (generateTextWithRetry p m primary fallback).primaryCalls = 1 ∧
    (generateTextWithRetry p m primary fallback).fallbackCalls = 0 ∧
    (generateTextWithRetry p m primary fallback).delays = [] := by
  obtain ⟨hs, hd, hc⟩ :=
    runAttempts_succeeds primary t 0 1 1000 m hm
      (fun j hj => absurd hj (by omega)) (by simpa using h1)
  have htn : ((m : Int)).toNat = m := by omega
  refine ⟨?_, ?_, ?_, ?_⟩ <;> simp [generateTextWithRetry, htn, hs, hd, hc]

/-- C8 witness: immediate success with three allowed attempts. -/
theorem generateTextWithRetry_first_success_witness :
    (generateTextWithRetry none 3 (fun _ => .ok "hi")
        (.error .emptyResponse)).result = .ok "hi" ∧
    (generateTextWithRetry none 3 (fun _ => .ok "hi")
        (.error .emptyResponse)).primaryCalls = 1 ∧
    (generateTextWithRetry none 3 (fun _ => .ok "hi")
        (.error .emptyResponse)).fallbackCalls = 0 ∧
    (generateTextWithRetry none 3 (fun _ => .ok "hi")
        (.error .emptyResponse)).delays = [] :=
  generateTextWithRetry_first_success none 3 (fun _ => .ok "hi")
    (.error .emptyResponse) "hi" (by decide) rfl

/-- C10: with `maxRetries ≤ 0` no primary call is made and no wait
occurs; when the current provider contains "openai" one fallback call is
still attempted, whose success is returned and whose failure raises the
generic "Failed to generate text after retries" error (no primary error
was recorded); when no fallback applies the same generic error is
raised with no calls at all. -/
theorem generateTextWithRetry_zero_retries (p : Option String) (mi : Int)
    (primary : Nat → Except Err String) (fallback : Except Err String)
    (hmi : mi ≤ 0) :
    (generateTextWithRetry p mi primary fallback).primaryCalls = 0 ∧
    (generateTextWithRetry p mi primary fallback).delays = [] ∧
    (strIncludes (currentProvider p) "openai" = true →
      (generateTextWithRetry p mi primary fallback).fallbackCalls = 1 ∧
      (∀ t, fallback = .ok t →
        (generateTextWithRetry p mi primary fallback).result = .ok t) ∧
      (∀ fe, fallback = .error fe →
        (generateTextWithRetry p mi primary fallback).result =
          .error (.generic "Failed to generate text after retries"))) ∧
    (strIncludes (currentProvider p) "openai" = false →
      (generateTextWithRetry p mi primary fallback).fallbackCalls = 0 ∧
      (generateTextWithRetry p mi primary fallback).result =
        .error (.generic "Failed to generate text after retries")) := by
  have htn : mi.toNat = 0 := by omega
  have hloop : runAttempts primary 1 mi.toNat 1000 = ⟨none, none, [], 0⟩ := by
    rw [htn]
    exact runAttempts_zero primary 1 1000
  by_cases hp : strIncludes (currentProvider p) "openai" = true
  · refine ⟨?_, ?_, fun _ => ⟨?_, ?_, ?_⟩,
      fun hq => absurd hp (by simp [hq])⟩
    · cases hf : fallback <;>
        simp [generateTextWithRetry, hloop, hp, hf]
    · cases hf : fallback <;>
        simp [generateTextWithRetry, hloop, hp, hf]
    · cases hf : fallback <;>
        simp [generateTextWithRetry, hloop, hp, hf]
    · intro t hf
      simp [generateTextWithRetry, hloop, hp, hf]
    · intro fe hf
      simp [generateTextWithRetry, hloop, hp, hf]
  · have hp' : strIncludes (currentProvider p) "openai" = false := by
      simpa using hp
    refine ⟨?_, ?_, fun hq => absurd hq (by simp [hp']), fun _ => ⟨?_, ?_⟩⟩
    · simp [generateTextWithRetry, hloop, hp']
    · simp [generateTextWithRetry, hloop, hp']
    · simp [generateTextWithRetry, hloop, hp']
    · simp [generateTextWithRetry, hloop, hp']

/-- C10 witness: `maxRetries = 0` on the default (openai) provider with
a failing fallback: zero primary calls, one fallback call, and the
generic error. -/
theorem generateTextWithRetry_zero_retries_witness :
    (generateTextWithRetry none 0 (fun _ => .ok "never")
        (.error .emptyResponse)).primaryCalls = 0 ∧
    (generateTextWithRetry none 0 (fun _ => .ok "never")
        (.error .emptyResponse)).fallbackCalls = 1 ∧
    (generateTextWithRetry none 0 (fun _ => .ok "never")
        (.error .emptyResponse)).result =
      .error (.generic "Failed to generate text after retries") := by
  have h := generateTextWithRetry_zero_retries none 0 (fun _ => .ok "never")
    (.error .emptyResponse) (by decide)
  have hp : strIncludes (currentProvider none) "openai" = true := by decide
  exact ⟨h.1, (h.2.2.1 hp).1, (h.2.2.1 hp).2.2 .emptyResponse rfl⟩

/-- C5 counterexample: a `NoProviderResponseError` thrown on attempt 1
is retried by the loop (a second primary call happens and the invocation
succeeds), contradicting the claim that such failures are surfaced as
terminal for the invocation. -/
theorem retry_no_provider_response_counterexample :
    (generateTextWithRetry none 2
        (fun k => if k = 1 then .error .noProviderResponse else .ok "r")
        (.error .emptyResponse)).result = .ok "r" ∧
    (generateTextWithRetry none 2
        (fun k => if k = 1 then .error .noProviderResponse else .ok "r")
        (.error .emptyResponse)).primaryCalls = 2 := by
  constructor <;> rfl

/-- C5 amended: the retry loop treats every error value uniformly, with
no inspection of its class: any failure on attempt 1 — including
`noProviderResponse`, `transport`, `emptyResponse` and
`providerReported` — is followed by a second attempt whose success is
returned.  (`malformedJson` arises only in `parseJSONResponse`, which is
not invoked inside `generateTextWithRetry` at all.) -/
theorem retry_uniform_in_error_class (e : Err) (p : Option String)
    (fallback : Except Err String) (t : String) :
    (generateTextWithRetry p 2
        (fun k : Nat => if k = 1 then .error e else .ok t)
        fallback).result = .ok t ∧
    (generateTextWithRetry p 2
        (fun k : Nat => if k = 1 then .error e else .ok t)
        fallback).primaryCalls = 2 := by
  obtain ⟨hs, _, hc⟩ :=
    runAttempts_succeeds
      (fun k : Nat => if k = 1 then .error e else .ok t) t
      1 1 1000 2 (by omega)
      (fun j hj => ⟨e, by
        have hj0 : j = 0 := by omega
        simp [hj0]⟩)
      (by simp)
  have htn : ((2 : Int)).toNat = 2 := by decide
  constructor <;> simp [generateTextWithRetry, htn, hs, hc]

/-- C3: extraction resolves the entry by exact key first, then (when the
key contains a separator) by the base name before the separator, then by
scanning all keys for the first entry exposing generated text, and
`noProviderResponse` arises only when no key yields text.  Concretely,
the exact key "openai/gpt-4o-mini" resolves directly and returns "hi",
and the same requested key resolves an entry keyed "openai" via the
base-name fallback, also returning "hi". -/
theorem generateTextExtract_resolution :
    (∀ (data : ProviderResponse) (provider : String) (e : Entry),
        jsLookup data provider = some e →
        generateTextExtract data provider = handleMatched e) ∧
    (∀ (data : ProviderResponse) (provider : String) (e : Entry),
        jsLookup data provider = none →
        strIncludes provider "/" = true →
        jsLookup data (baseProvider provider) = some e →
        generateTextExtract data provider = handleMatched e) ∧
    (∀ (data : ProviderResponse) (provider : String) (t : String),
        resolveEntry data provider = none → scanText data = some t →
        generateTextExtract data provider = .ok t) ∧
    (∀ (data : ProviderResponse) (provider : String),
        generateTextExtract data provider = .error .noProviderResponse →
        ∀ kv, kv ∈ data → truthyText kv.2 = false) ∧
    generateTextExtract [("openai/gpt-4o-mini", ⟨some "hi", none, none⟩)]
      "openai/gpt-4o-mini" = .ok "hi" ∧
    generateTextExtract [("openai", ⟨some "hi", none, none⟩)]
      "openai/gpt-4o-mini" = .ok "hi" := by
  refine ⟨?_, ?_, ?_, ?_, rfl, rfl⟩
  · intro data provider e h
    simp [generateTextExtract, resolveEntry, h]
  · intro data provider e h1 h2 h3
    simp [generateTextExtract, resolveEntry, h1, h2, h3]
  · intro data provider t h1 h2
    simp [generateTextExtract, h1, h2]
  · intro data provider h kv hmem
    rcases hr : resolveEntry data provider with _ | e
    · rcases hscan : scanText data with _ | t
      · have hfind : data.find? (fun kv => truthyText kv.2) = none := by
          simpa [scanText, Option.map_eq_none'] using hscan
        have hnot := List.find?_eq_none.mp hfind kv hmem
        simpa using hnot
      · simp [generateTextExtract, hr, hscan] at h
    · have h' : handleMatched e = .error .noProviderResponse := by
        simpa [generateTextExtract, hr] using h
      simp only [handleMatched] at h'
      split_ifs at h' <;> simp at h'

/-- C3 witness: the exact-match conjunct applied to a one-entry body. -/
theorem generateTextExtract_resolution_witness :
    generateTextExtract [("k", ⟨some "w", none, none⟩)] "k" =
      handleMatched ⟨some "w", none, none⟩ :=
  generateTextExtract_resolution.1 [("k", ⟨some "w", none, none⟩)] "k"
    ⟨some "w", none, none⟩ rfl

/-- C4 counterexample: `chat`'s extraction reports success with empty
text: a matched entry with no `generated_text` yields
`generated_text || ''` = "" and no blank-text check is applied,
contradicting the invariant that a success never carries empty text. -/
theorem chat_empty_success_counterexample :
    chatExtract [("openai", ⟨none, none, none⟩)] "openai" = .ok "" := rfl

/-- C4 amended: on the exact-key or base-name match path `generateText`
never returns blank text on success (blank text raises
`emptyResponse`), but the scan path can return whitespace-only text as
success, and `chat` applies no blank-text check at all and can return
empty text as success. -/
theorem success_text_blank_guard :
    (∀ (data : ProviderResponse) (provider : String) (e : Entry)
        (t : String),
        resolveEntry data provider = some e →
        generateTextExtract data provider = .ok t → jsTrim t ≠ "") ∧
    generateTextExtract [("a", ⟨some " ", none, none⟩)] "b" = .ok " " ∧
    chatExtract [("openai", ⟨some "", none, none⟩)] "openai" = .ok "" := by
  refine ⟨?_, rfl, rfl⟩
  intro data provider e t hres hok
  have h' : handleMatched e = .ok t := by
    simpa [generateTextExtract, hres] using hok
  simp only [handleMatched] at h'
  split_ifs at h' with hfail hblank
  obtain rfl : e.generated_text.getD "" = t := by simpa using h'
  exact hblank

/-- C4 witness: matched non-blank text is indeed not blank. -/
theorem success_text_blank_guard_witness : jsTrim "hello" ≠ "" :=
  success_text_blank_guard.1 [("k", ⟨some "hello", none, none⟩)] "k"
    ⟨some "hello", none, none⟩ "hello" rfl rfl

/-- C6: an entry matched via exact or base-name key that carries the
explicit failure status raises `providerReported` surfacing the
provider's error message; concretely `status: "fail"` with error message
"quota exceeded" fails carrying "quota exceeded". -/
theorem provider_reported_failure :
    (∀ (data : ProviderResponse) (provider : String) (e : Entry),
        resolveEntry data provider = some e → e.status = some "fail" →
        generateTextExtract data provider =
          .error (.providerReported (providerErrMsg e))) ∧
    generateTextExtract
      [("openai", ⟨none, some "fail", some ⟨some "quota exceeded"⟩⟩)]
      "openai" = .error (.providerReported "quota exceeded") := by
  refine ⟨?_, rfl⟩
  intro data provider e hres hstat
  simp [generateTextExtract, hres, handleMatched, hstat]

/-- C6 witness: the generic conjunct applied to a failing entry. -/
theorem provider_reported_failure_witness :
    generateTextExtract [("g", ⟨some "x", some "fail", some ⟨some "m"⟩⟩)]
      "g" = .error (.providerReported "m") :=
  provider_reported_failure.1 [("g", ⟨some "x", some "fail", some ⟨some "m"⟩⟩)]
    "g" ⟨some "x", some "fail", some ⟨some "m"⟩⟩ rfl rfl

/-- C9: when neither the exact nor the base-name key matches, the first
scanned entry with truthy `generated_text` is returned as success
directly, bypassing the failure-status and blank-text checks; concretely
an entry carrying `status: "fail"`, an error payload, and
whitespace-only text is returned as a successful result. -/
theorem scan_bypasses_checks :
    (∀ (data : ProviderResponse) (provider : String) (kv : String × Entry),
        resolveEntry data provider = none →
        data.find? (fun kv => truthyText kv.2) = some kv →
        generateTextExtract data provider =
          .ok (kv.2.generated_text.getD "")) ∧
    generateTextExtract
      [("x", ⟨some " ", some "fail", some ⟨some "boom"⟩⟩)]
      "openai/gpt-4o-mini" = .ok " " := by
  refine ⟨?_, rfl⟩
  intro data provider kv hres hfind
  simp [generateTextExtract, hres, scanText, hfind]

/-- C9 witness: the scan conjunct applied to a body whose only entry has
a failure status but truthy text. -/
theorem scan_bypasses_checks_witness :
    generateTextExtract [("x", ⟨some "t", some "fail", none⟩)] "p" =
      .ok "t" :=
  scan_bypasses_checks.1 [("x", ⟨some "t", some "fail", none⟩)] "p"
    ("x", ⟨some "t", some "fail", none⟩) rfl rfl

/-- C7: `parseJSONResponse` strips code fences, selects the first greedy
braced/bracketed span, parses once, and on failure applies exactly one
trailing-comma repair pass and retries once, failing with
`malformedJson` only when both parses fail; the fenced example with a
trailing comma parses to the object with "a" mapped to 1, and blank
input fails with `emptyInput` before any parsing. -/
theorem parseJSONResponse_spec :
    parseJSONResponse "```json\n\x7b\"a\":1,\x7d\n```" =
      .ok (.obj [("a", .num "1")]) ∧
    parseJSONResponse "" = .error .emptyInput ∧
    parseJSONResponse "   " = .error .emptyInput ∧
    (∀ s v, jsTrim s ≠ "" → jsonParse (candidateJson s) = some v →
        parseJSONResponse s = .ok v) ∧
    (∀ s v, jsTrim s ≠ "" → jsonParse (candidateJson s) = none →
        jsonParse (fixTrailingCommas (candidateJson s)) = some v →
        parseJSONResponse s = .ok v) ∧
    (∀ s, parseJSONResponse s = .error .malformedJson →
        jsonParse (candidateJson s) = none ∧
        jsonParse (fixTrailingCommas (candidateJson s)) = none) := by
  refine ⟨rfl, rfl, rfl, ?_, ?_, ?_⟩
  · intro s v hblank h1
    simp [parseJSONResponse, hblank, h1]
  · intro s v hblank h1 h2
    simp [parseJSONResponse, hblank, h1, h2]
  · intro s h
    by_cases hblank : jsTrim s = ""
    · simp [parseJSONResponse, hblank] at h
    · rcases h1 : jsonParse (candidateJson s) with _ | v
      · rcases h2 : jsonParse (fixTrailingCommas (candidateJson s)) with _ | v
        · exact ⟨rfl, rfl⟩
        · simp [parseJSONResponse, hblank, h1, h2] at h
      · simp [parseJSONResponse, hblank, h1] at h

/-- C7 witness: a bare numeric document parses on the first attempt. -/
theorem parseJSONResponse_spec_witness :
    parseJSONResponse "1" = .ok (.num "1") :=
  parseJSONResponse_spec.2.2.2.1 "1" (.num "1") (by decide) rfl

end EdenAI
